import Mathlib

/-
Verification of the Motor (PapagayoEngine) orchestration layer: a shallow
embedding of the engine lifecycle, the manager singletons, the per-frame
loop and the scene entity map, with theorems about initialization order,
failure propagation, singleton discipline and name disambiguation.

Pointers are modelled as allocation identifiers (Nat); a static instance
field is an Option Nat; a thrown C++ exception is modelled by an error
branch; std::string is modelled by List Char where character-level facts
matter and by String where only the message identity matters.
-/

set_option autoImplicit false

/-- Identifier of a subsystem singleton brought up by PapagayoEngine.init:
the external rendering context, then the resource manager, then the scene
manager, in the order the source declares. -/
inductive Subsys
  | ogreContext
  | resourceManager
  | sceneManager
deriving DecidableEq

/-- One action performed by PapagayoEngine.init, in temporal order: a
successful construction of a subsystem singleton, the RT shader generator
setup, or the trailing test MeshComponent allocation. -/
inductive InitAction
  | setup (s : Subsys)
  | rtShaderSetup
  | meshTest
deriving DecidableEq

/-- State of the singleton fields touched by PapagayoEngine.init: whether
each subsystem instance exists, plus the trace of actions performed so far
(the trace records the temporal order of constructions). -/
structure EngineInitState where
  ogre : Bool
  resourceMgr : Bool
  sceneMgr : Bool
  trace : List InitAction
deriving DecidableEq

/-- The fresh process state: no singleton exists, nothing has run. -/
def engineFresh : EngineInitState :=
  { ogre := false, resourceMgr := false, sceneMgr := false, trace := [] }

/-- Modelled from the spec: the bodies of OgreContext.setupInstance,
ResourceManager.setupInstance and SceneManager.setupInstance are not in
the sources; per the spec each initialize either establishes the subsystem
or fails fatally, and per the setupInstance pattern visible in
PapagayoEngine.cpp and UIManager (part 000) an already existing instance
makes the call return false without constructing anything. Result: none
means the constructor threw; some ret means the call returned ret. -/
def setupGuarded (already : Bool) (ctorOk : Bool) : Option Bool :=
  if already then some false
  else if ctorOk then some true
  else none

/-- PapagayoEngine.init from PapagayoEngine.cpp lines 56 to 82: bring up
OgreContext, then ResourceManager, then SceneManager, each wrapped in a
try block that rethrows a runtime error naming the failed subsystem and
aborts the rest; on full success run setupRTShaderGenerator and allocate
the test MeshComponent. The ok flags say whether each construction would
succeed; the exception payload of the rethrown error is abstracted to the
subsystem-naming message. -/
def PapagayoEngine.init (ogreOk resOk sceneOk : Bool) (st : EngineInitState) :
    EngineInitState × Option String :=
  match setupGuarded st.ogre ogreOk with
  | none => (st, some "OgreContext init fail")
  | some created1 =>
    let st1 := if created1 then
        { st with ogre := true, trace := st.trace ++ [InitAction.setup Subsys.ogreContext] }
      else st
    match setupGuarded st1.resourceMgr resOk with
    | none => (st1, some "ResourceManager init fail")
    | some created2 =>
      let st2 := if created2 then
          { st1 with resourceMgr := true,
                     trace := st1.trace ++ [InitAction.setup Subsys.resourceManager] }
        else st1
      match setupGuarded st2.sceneMgr sceneOk with
      | none => (st2, some "SceneManager init fail")
      | some created3 =>
        let st3 := if created3 then
            { st2 with sceneMgr := true,
                       trace := st2.trace ++ [InitAction.setup Subsys.sceneManager] }
          else st2
        ({ st3 with trace := st3.trace ++ [InitAction.rtShaderSetup, InitAction.meshTest] },
         none)

/-- Static pointer state of the PapagayoEngine singleton: the instance
field, the set of deleted allocations, and whether the manager cleanups
inside clean have run. -/
structure EnginePtr where
  inst : Option Nat
  destroyed : List Nat
  managersCleaned : Bool
deriving DecidableEq

/-- PapagayoEngine.setupInstance from PapagayoEngine.cpp lines 35 to 43:
if no instance exists, allocate one (the fresh id) and return true;
otherwise return false and change nothing. -/
def PapagayoEngine.setupInstance (st : EnginePtr) (fresh : Nat) : Bool × EnginePtr :=
  match st.inst with
  | none => (true, { st with inst := some fresh })
  | some _ => (false, st)

/-- PapagayoEngine.clean from PapagayoEngine.cpp lines 45 to 54: clean the
scene and resource managers, then delete the instance pointer. The field
inst is deliberately not reset: the source never assigns null after the
delete, so the dangling allocation id stays stored. -/
def PapagayoEngine.clean (st : EnginePtr) : EnginePtr :=
  match st.inst with
  | none => { st with managersCleaned := true }
  | some p => { st with managersCleaned := true, destroyed := p :: st.destroyed }

/-- PapagayoEngine.getInstance from PapagayoEngine.cpp lines 26 to 32: if
the instance field is null, try setupInstance and throw on failure; then
return the instance field as it stands, even when the allocation it names
was already deleted. -/
def PapagayoEngine.getInstance (st : EnginePtr) (fresh : Nat) :
    Except String (Nat × EnginePtr) :=
  match st.inst with
  | some p => Except.ok (p, st)
  | none =>
    match PapagayoEngine.setupInstance st fresh with
    | (true, st1) => Except.ok (fresh, st1)
    | (false, _) => Except.error "ERROR: PapagayoEngine could not be created"

/-- UIManager.setUpInstance from part 000 lines 47 to 57: when no instance
exists, construct one inside a try block; a throwing constructor is caught
by the catch-all and reported as false with the instance field still null
(the assignment to the field happens only after construction returns).
When an instance already exists the function skips construction and
returns true. -/
def UIManager.setUpInstance (ctorOk : Bool) (inst : Option Nat) (fresh : Nat) :
    Bool × Option Nat :=
  match inst with
  | none => if ctorOk then (true, some fresh) else (false, none)
  | some p => (true, some p)

/-- Manager domain identifiers as used by the sources: the Manager base
header declares Physics, and RenderManager and UIManager construct
themselves with the Render and UI tags. -/
inductive ManID
  | physics
  | render
  | ui
deriving DecidableEq

/-- One observable action inside a single PapagayoEngine.update call: the
external frame advance (renderOneFrame on the Ogre root) or a dispatch of
update on a domain manager. The vendored update body only performs the
former; the constructor for the latter exists so that its absence from
the trace is expressible. -/
inductive FrameEvent
  | advanceFrame
  | managerUpdate (m : ManID)
deriving DecidableEq

/-- State carried across frame-loop iterations: the running flag and the
number of frames advanced so far. -/
structure RunState where
  running : Bool
  frame : Nat
deriving DecidableEq

/-- PapagayoEngine.update from PapagayoEngine.cpp lines 87 to 98: advance
the external frame context by one tick via renderOneFrame, rethrowing any
failure as the fatal rendering error; no manager update is dispatched.
renderOk says whether the external render of a given frame succeeds.
Modelled from the spec: the running flag declaration and the cooperative
stop mechanism are not in the sources (the header is absent); per the
spec the flag is the sole stop mechanism and a stop request during frame
n takes effect by clearing the flag inside that frame, here stopReq n. -/
def PapagayoEngine.update (renderOk stopReq : Nat -> Bool) (st : RunState) :
    Except String (RunState × List FrameEvent) :=
  if renderOk st.frame then
    Except.ok ({ running := st.running && !(stopReq st.frame), frame := st.frame + 1 },
               [FrameEvent.advanceFrame])
  else
    Except.error "Fallo de renderizado"

/-- The while loop of PapagayoEngine.run from PapagayoEngine.cpp lines 105
to 107: while the running flag holds, call update; a fatal error from
update propagates out. The fuel argument bounds the number of iterations
observed (the source loop is unbounded); the result counts the update
calls performed and returns the final state. -/
def PapagayoEngine.runLoop (renderOk stopReq : Nat -> Bool) :
    Nat -> RunState -> Except String (Nat × RunState)
  | 0, st => Except.ok (0, st)
  | fuel + 1, st =>
    if st.running then
      match PapagayoEngine.update renderOk stopReq st with
      | Except.error e => Except.error e
      | Except.ok (st1, _) =>
        match PapagayoEngine.runLoop renderOk stopReq fuel st1 with
        | Except.error e => Except.error e
        | Except.ok (n, st2) => Except.ok (n + 1, st2)
    else Except.ok (0, st)

/-- PapagayoEngine.run from PapagayoEngine.cpp lines 102 to 108: call init
(an init failure propagates and the loop is never entered), then run the
main loop from the given initial state. -/
def PapagayoEngine.run (ogreOk resOk sceneOk : Bool) (renderOk stopReq : Nat -> Bool)
    (fuel : Nat) (st0 : RunState) : Except String (Nat × RunState) :=
  match PapagayoEngine.init ogreOk resOk sceneOk engineFresh with
  | (_, some e) => Except.error e
  | (_, none) => PapagayoEngine.runLoop renderOk stopReq fuel st0

/-- One observable call made by a manager during start or update: the
setUp or update hook of an owned component (identified by allocation id),
or the domain-level frame action of RenderManager (renderOneFrame). -/
inductive CompCall
  | setUpCall (c : Nat)
  | updateCall (c : Nat)
  | renderOneFrame
deriving DecidableEq

/-- RenderManager.start from RenderManager.cpp lines 35 to 41: iterate the
owned component list in order and call setUp on each. -/
def RenderManager.start : List Nat -> List CompCall
  | [] => []
  | c :: rest => CompCall.setUpCall c :: RenderManager.start rest

/-- Helper for the component loop of RenderManager.update: call update on
each owned component in list order. -/
def RenderManager.updateComps : List Nat -> List CompCall
  | [] => []
  | c :: rest => CompCall.updateCall c :: RenderManager.updateComps rest

/-- RenderManager.update from RenderManager.cpp lines 43 to 50: first the
domain action renderOneFrame on the Ogre root, then update on every owned
component in list order. -/
def RenderManager.update (comps : List Nat) : List CompCall :=
  CompCall.renderOneFrame :: RenderManager.updateComps comps

/-- UIManager.start from part 000 lines 70 to 72: the body is empty, so no
call is made regardless of the owned component list. -/
def UIManager.start (_comps : List Nat) : List CompCall := []

/-- UIManager.update from part 000 lines 74 to 76: the body is empty, so
no call is made regardless of the owned component list. -/
def UIManager.update (_comps : List Nat) : List CompCall := []

/-- A std::string is modelled as its character sequence. -/
abbrev Str := List Char

/-- Decimal digit rendered as a character, as std::to_string does. -/
def digitChar (d : Nat) : Char := Char.ofNat (48 + d % 10)

/-- Little-endian decimal digits of n, with fuel for structural recursion;
called with fuel = n so the fuel never runs out. -/
def natDigitsAux : Nat -> Nat -> List Nat
  | 0, _ => []
  | _ + 1, 0 => []
  | fuel + 1, n + 1 => (n + 1) % 10 :: natDigitsAux fuel ((n + 1) / 10)

/-- Little-endian decimal digits of n. -/
def natDigits (n : Nat) : List Nat := natDigitsAux n n

/-- Character sequence produced by std::to_string on a Nat: most
significant digit first, and 0 renders as the single digit zero. -/
def natChars (n : Nat) : Str :=
  if n = 0 then [digitChar 0] else ((natDigits n).map digitChar).reverse

/-- Scene state from the Scene header (part 001 lines 148 to 169): the
entity map (modelled as an association list keyed by name, each entity an
allocation id; only the key set and entry count matter to the claims) and
the per-base-name collision counters usedNames. -/
structure SceneM where
  entities : List (Str × Nat)
  usedNames : List (Str × Nat)
deriving DecidableEq

/-- Lookup in an association list keyed by Str, as std::map find. -/
def getCount : List (Str × Nat) -> Str -> Option Nat
  | [], _ => none
  | (k, v) :: rest, key => if k = key then some v else getCount rest key

/-- Insert or overwrite one key in an association list, as std::map
subscript assignment. -/
def setCount : List (Str × Nat) -> Str -> Nat -> List (Str × Nat)
  | [], key, v => [(key, v)]
  | (k, w) :: rest, key, v =>
    if k = key then (k, v) :: rest else (k, w) :: setCount rest key v

/-- Membership test on the entity map, as std::map count or find. -/
def hasKey (l : List (Str × Nat)) (key : Str) : Bool := (getCount l key).isSome

/-- Fresh scene: no entities, no counters. -/
def Scene.empty : SceneM := { entities := [], usedNames := [] }

/-- Modelled from the spec: the body of Scene.addEntity is not in the
sources (only the Scene header is, part 001 lines 148 to 169, declaring
the entities map and the usedNames counters the spec describes). Per spec
section 4.2: if the name is unused it is inserted as the key; if in use,
the per-base-name counter is bumped and the entry is inserted under the
name followed by an underscore and the counter, the counter persisting in
usedNames for later collisions on the same base name. -/
def Scene.addEntity (s : SceneM) (name : Str) (ent : Nat) : SceneM :=
  if hasKey s.entities name then
    { entities := s.entities ++
        [(name ++ '_' :: natChars ((getCount s.usedNames name).getD 0 + 1), ent)],
      usedNames := setCount s.usedNames name ((getCount s.usedNames name).getD 0 + 1) }
  else
    { s with entities := s.entities ++ [(name, ent)] }

/-- N calls of Scene.addEntity reusing one base name, starting from the
empty scene; the i-th added entity carries id i. -/
def Scene.addSame (b : Str) : Nat -> SceneM
  | 0 => Scene.empty
  | n + 1 => Scene.addEntity (Scene.addSame b n) b n

/-- The key under which the i-th insertion of base name b is stored: the
base name itself for the first insertion, the base name with suffix i for
later ones. -/
def collisionKey (b : Str) (i : Nat) : Str :=
  if i = 0 then b else b ++ '_' :: natChars i

/-- The expected key list after n insertions of base name b. -/
def expectedKeys (b : Str) (n : Nat) : List Str :=
  (List.range n).map (collisionKey b)

/-- Value of a little-endian decimal digit list. -/
def undigits (l : List Nat) : Nat := l.foldr (fun d acc => d + 10 * acc) 0

theorem undigits_natDigitsAux : forall fuel n, n <= fuel ->
    undigits (natDigitsAux fuel n) = n := by
  intro fuel
  induction fuel with
  | zero =>
    intro n hn
    interval_cases n
    simp [natDigitsAux, undigits]
  | succ fuel ih =>
    intro n hn
    match n with
    | 0 => simp [natDigitsAux, undigits]
    | m + 1 =>
      have hdiv : (m + 1) / 10 < m + 1 := Nat.div_lt_self (Nat.succ_pos m) (by norm_num)
      have hle : (m + 1) / 10 <= fuel := by omega
      simp only [natDigitsAux, undigits, List.foldr_cons]
      have := ih ((m + 1) / 10) hle
      simp only [undigits] at this
      rw [this]
      omega

theorem natDigits_inj {m n : Nat} (h : natDigits m = natDigits n) : m = n := by
  have hm := undigits_natDigitsAux m m (Nat.le_refl m)
  have hn := undigits_natDigitsAux n n (Nat.le_refl n)
  rw [natDigits] at h
  rw [natDigits] at h
  rw [h] at hm
  omega

theorem natDigitsAux_lt_ten : forall fuel n d, d ∈ natDigitsAux fuel n -> d < 10 := by
  intro fuel
  induction fuel with
  | zero => intro n d hd; simp [natDigitsAux] at hd
  | succ fuel ih =>
    intro n d hd
    match n with
    | 0 => simp [natDigitsAux] at hd
    | m + 1 =>
      simp only [natDigitsAux, List.mem_cons] at hd
      rcases hd with h1 | h2
      · subst h1; exact Nat.mod_lt _ (by norm_num)
      · exact ih _ _ h2

theorem digitChar_inj_lt : forall a, a < 10 -> forall b, b < 10 ->
    digitChar a = digitChar b -> a = b := by decide

theorem map_digitChar_inj : forall l1 l2 : List Nat,
    (∀ x ∈ l1, x < 10) -> (∀ x ∈ l2, x < 10) ->
    l1.map digitChar = l2.map digitChar -> l1 = l2 := by
  intro l1
  induction l1 with
  | nil => intro l2 _ _ h; cases l2 <;> simp_all
  | cons a rest ih =>
    intro l2 h1 h2 h
    cases l2 with
    | nil => simp at h
    | cons b rest2 =>
      simp only [List.map_cons, List.cons.injEq] at h
      have ha : a < 10 := h1 a (List.mem_cons_self a rest)
      have hb : b < 10 := h2 b (List.mem_cons_self b rest2)
      have hab : a = b := digitChar_inj_lt a ha b hb h.1
      have hrest : rest = rest2 := by
        apply ih rest2
        · intro x hx; exact h1 x (List.mem_cons_of_mem a hx)
        · intro x hx; exact h2 x (List.mem_cons_of_mem b hx)
        · exact h.2
      rw [hab, hrest]

theorem natChars_inj_pos {m n : Nat} (hm : 0 < m) (hn : 0 < n)
    (h : natChars m = natChars n) : m = n := by
  unfold natChars at h
  rw [if_neg (Nat.pos_iff_ne_zero.mp hm), if_neg (Nat.pos_iff_ne_zero.mp hn)] at h
  have h2 : (natDigits m).map digitChar = (natDigits n).map digitChar :=
    List.reverse_inj.mp h
  exact natDigits_inj (map_digitChar_inj _ _
    (fun x hx => natDigitsAux_lt_ten m m x hx)
    (fun x hx => natDigitsAux_lt_ten n n x hx) h2)

theorem collisionKey_inj (b : Str) : Function.Injective (collisionKey b) := by
  intro i j h
  unfold collisionKey at h
  by_cases hi : i = 0 <;> by_cases hj : j = 0
  · rw [hi, hj]
  · rw [if_pos hi, if_neg hj] at h
    have := congrArg List.length h
    simp [List.length_append] at this
  · rw [if_neg hi, if_pos hj] at h
    have := congrArg List.length h
    simp [List.length_append] at this
  · rw [if_neg hi, if_neg hj] at h
    have h2 := List.append_cancel_left h
    have h3 : natChars i = natChars j := by
      injection h2
    exact natChars_inj_pos (Nat.pos_of_ne_zero hi) (Nat.pos_of_ne_zero hj) h3

theorem expectedKeys_nodup (b : Str) (n : Nat) : (expectedKeys b n).Nodup :=
  (List.nodup_range n).map (collisionKey_inj b)

theorem getCount_isSome_iff : forall (l : List (Str × Nat)) (k : Str),
    (getCount l k).isSome = true <-> k ∈ l.map Prod.fst := by
  intro l
  induction l with
  | nil => intro k; simp [getCount]
  | cons p rest ih =>
    intro k
    match p with
    | (a, v) =>
      simp only [getCount, List.map_cons, List.mem_cons]
      by_cases hak : a = k
      · rw [if_pos hak]; simp [hak]
      · rw [if_neg hak]
        rw [ih k]
        constructor
        · intro hmem; exact Or.inr hmem
        · intro hor
          rcases hor with h1 | h2
          · exact absurd h1.symm hak
          · exact h2

theorem addSame_spec (b : Str) : forall n : Nat,
    (Scene.addSame b n).entities.map Prod.fst = expectedKeys b n ∧
    (Scene.addSame b n).usedNames = (if n <= 1 then [] else [(b, n - 1)]) := by
  intro n
  induction n with
  | zero =>
    constructor
    · simp [Scene.addSame, Scene.empty, expectedKeys]
    · simp [Scene.addSame, Scene.empty]
  | succ n ih =>
    obtain ⟨ihk, ihu⟩ := ih
    by_cases hn : n = 0
    · subst hn
      constructor
      · simp [Scene.addSame, Scene.addEntity, Scene.empty, hasKey, getCount,
              expectedKeys, List.range_succ, collisionKey]
      · simp [Scene.addSame, Scene.addEntity, Scene.empty, hasKey, getCount, setCount]
    · have hmem : b ∈ (Scene.addSame b n).entities.map Prod.fst := by
        rw [ihk]
        have h0 : (0:Nat) ∈ List.range n := List.mem_range.mpr (Nat.pos_of_ne_zero hn)
        have hck : collisionKey b 0 = b := by simp [collisionKey]
        exact hck ▸ List.mem_map_of_mem (collisionKey b) h0
      have hk : hasKey (Scene.addSame b n).entities b = true := by
        unfold hasKey
        exact (getCount_isSome_iff _ _).mpr hmem
      have hc : (getCount (Scene.addSame b n).usedNames b).getD 0 + 1 = n := by
        rw [ihu]
        by_cases h1 : n <= 1
        · rw [if_pos h1]
          simp [getCount]
          omega
        · rw [if_neg h1]
          simp [getCount]
          omega
      constructor
      · simp only [Scene.addSame, Scene.addEntity, hk, if_true]
        simp only [List.map_append, ihk, List.map_cons, List.map_nil, hc]
        simp [expectedKeys, List.range_succ, collisionKey, hn]
      · simp only [Scene.addSame, Scene.addEntity, hk, if_true, hc]
        rw [ihu]
        by_cases h1 : n <= 1
        · have hn1 : n = 1 := by omega
          rw [if_pos h1, hn1]
          simp [setCount]
        · rw [if_neg h1]
          have h2 : ¬ (n + 1 <= 1) := by omega
          rw [if_neg h2]
          simp [setCount]

theorem render_start_eq_map (l : List Nat) :
    RenderManager.start l = l.map CompCall.setUpCall := by
  induction l with
  | nil => rfl
  | cons c rest ih => simp [RenderManager.start, ih]

theorem render_updateComps_eq_map (l : List Nat) :
    RenderManager.updateComps l = l.map CompCall.updateCall := by
  induction l with
  | nil => rfl
  | cons c rest ih => simp [RenderManager.updateComps, ih]

theorem setUpCall_injective : Function.Injective CompCall.setUpCall := by
  intro a b h
  injection h

/-- C1: PapagayoEngine.init from the fresh state performs the subsystem
initializations in the declared order, rendering context first, then
resource manager, then scene manager; the first failing step aborts the
rest with a fatal error naming the failed subsystem, and no step declared
after the failed one appears in the trace or in the instance flags. -/
theorem papagayo_init_subsystem_order (ogreOk resOk sceneOk : Bool) :
    PapagayoEngine.init ogreOk resOk sceneOk engineFresh =
      if ogreOk = false then (engineFresh, some "OgreContext init fail")
      else if resOk = false then
        ({ ogre := true, resourceMgr := false, sceneMgr := false,
           trace := [InitAction.setup Subsys.ogreContext] },
         some "ResourceManager init fail")
      else if sceneOk = false then
        ({ ogre := true, resourceMgr := true, sceneMgr := false,
           trace := [InitAction.setup Subsys.ogreContext,
                     InitAction.setup Subsys.resourceManager] },
         some "SceneManager init fail")
      else
        ({ ogre := true, resourceMgr := true, sceneMgr := true,
           trace := [InitAction.setup Subsys.ogreContext,
                     InitAction.setup Subsys.resourceManager,
                     InitAction.setup Subsys.sceneManager,
                     InitAction.rtShaderSetup, InitAction.meshTest] },
         none) := by
  cases ogreOk <;> cases resOk <;> cases sceneOk <;> rfl

/-- C2 counterexample: after a first successful UIManager.setUpInstance
call, a second call returns true, not false, so the claim that every
singleton setup reports failure on repeat calls is wrong for UIManager. -/
theorem uiManager_second_setup_returns_true :
    UIManager.setUpInstance true none 7 = (true, some 7) ∧
    (UIManager.setUpInstance true (some 7) 8).1 = true ∧
    ¬ (UIManager.setUpInstance true (some 7) 8).1 = false := by
  refine ⟨rfl, rfl, ?_⟩
  intro h
  exact absurd h (by decide)

/-- C2 amended: after a first successful call, a repeat call never
replaces the stored instance: PapagayoEngine.setupInstance returns false
with the state untouched, while UIManager.setUpInstance also leaves the
instance untouched but reports true rather than false. -/
theorem second_setup_instance_behavior (st : EnginePtr) (p fresh : Nat) (ok : Bool)
    (h : st.inst = some p) :
    PapagayoEngine.setupInstance st fresh = (false, st) ∧
    UIManager.setUpInstance ok (some p) fresh = (true, some p) := by
  constructor
  · simp [PapagayoEngine.setupInstance, h]
  · cases ok <;> rfl

/-- C2 witness: the amended statement at a concrete occupied state. -/
theorem second_setup_instance_behavior_check :
    PapagayoEngine.setupInstance
        { inst := some 3, destroyed := [], managersCleaned := false } 9 =
      (false, { inst := some 3, destroyed := [], managersCleaned := false }) ∧
    UIManager.setUpInstance true (some 3) 9 = (true, some 3) :=
  second_setup_instance_behavior _ 3 9 true rfl

/-- C6 counterexample: UIManager.start with one owned component makes no
call at all, so the claim that every manager invokes setUp once per owned
component fails for UIManager. -/
theorem ui_start_skips_components :
    UIManager.start [0] = [] ∧ ¬ CompCall.setUpCall 0 ∈ UIManager.start [0] := by
  refine ⟨rfl, ?_⟩
  intro h
  simp [UIManager.start] at h

/-- C6 amended: RenderManager.start invokes setUp exactly once on every
owned component, in list order, and invokes nothing else; UIManager.start
has an empty body and invokes setUp on no component. -/
theorem render_start_setup_calls (comps : List Nat) (c : Nat)
    (hnd : comps.Nodup) (hc : c ∈ comps) :
    RenderManager.start comps = comps.map CompCall.setUpCall ∧
    (RenderManager.start comps).count (CompCall.setUpCall c) = 1 ∧
    (∀ e ∈ RenderManager.start comps, ∃ d ∈ comps, e = CompCall.setUpCall d) ∧
    UIManager.start comps = [] := by
  refine ⟨render_start_eq_map comps, ?_, ?_, rfl⟩
  · rw [render_start_eq_map]
    rw [List.count_map_of_injective comps CompCall.setUpCall setUpCall_injective c]
    exact List.count_eq_one_of_mem hnd hc
  · intro e he
    rw [render_start_eq_map] at he
    obtain ⟨d, hd, hde⟩ := List.mem_map.mp he
    exact ⟨d, hd, hde.symm⟩

/-- C6 witness: the amended statement on a concrete two-component list. -/
theorem render_start_setup_calls_check :
    RenderManager.start [4, 7] = [CompCall.setUpCall 4, CompCall.setUpCall 7] ∧
    (RenderManager.start [4, 7]).count (CompCall.setUpCall 4) = 1 := by
  have h := render_start_setup_calls [4, 7] 4 (by decide) (by decide)
  exact ⟨h.1, h.2.1⟩

/-- C7 counterexample: UIManager.update with one owned component performs
neither a domain action nor any component update, so the claim that every
manager first runs its domain action and then updates each owned
component fails for UIManager. -/
theorem ui_update_skips_components :
    UIManager.update [5] = [] ∧
    ¬ CompCall.updateCall 5 ∈ UIManager.update [5] ∧
    (UIManager.update [5]).head? = none := by
  refine ⟨rfl, ?_, rfl⟩
  intro h
  simp [UIManager.update] at h

/-- C7 amended: RenderManager.update first performs the domain frame
action (renderOneFrame) and then update on every owned component in list
order, a deterministic function of the owned list; UIManager.update has
an empty body and performs neither. -/
theorem render_update_dispatch_order (comps : List Nat) :
    RenderManager.update comps =
      CompCall.renderOneFrame :: comps.map CompCall.updateCall ∧
    (RenderManager.update comps).head? = some CompCall.renderOneFrame ∧
    UIManager.update comps = [] := by
  refine ⟨?_, rfl, rfl⟩
  unfold RenderManager.update
  rw [render_updateComps_eq_map]

/-- C8 counterexample: a second PapagayoEngine.init call on the already
initialized state reports no failure (the error component is none, where
the claim demands a reported failure) and alters state (the action trace
grows by a repeated shader setup and mesh allocation). -/
theorem second_init_reports_no_failure :
    (PapagayoEngine.init true true true
        (PapagayoEngine.init true true true engineFresh).1).2 = none ∧
    ¬ ((PapagayoEngine.init true true true
        (PapagayoEngine.init true true true engineFresh).1).1.trace =
      (PapagayoEngine.init true true true engineFresh).1.trace) := by
  refine ⟨rfl, ?_⟩
  intro h
  exact absurd h (by decide)

/-- C8 amended: PapagayoEngine.init carries no lifecycle guard: called on
a state where every subsystem singleton already exists, it reports no
failure; the per-subsystem setupInstance guards skip reconstruction, so
the instance flags stay as they were, but the RT shader setup and the
test mesh allocation are executed again. -/
theorem init_reentry_behavior (st : EngineInitState) (o r s : Bool)
    (h1 : st.ogre = true) (h2 : st.resourceMgr = true) (h3 : st.sceneMgr = true) :
    PapagayoEngine.init o r s st =
      ({ st with trace :=
          st.trace ++ [InitAction.rtShaderSetup, InitAction.meshTest] }, none) := by
  simp [PapagayoEngine.init, setupGuarded, h1, h2, h3]

/-- C8 witness: the amended statement at the state produced by a first
successful init, with every constructor flag false, showing that no
failure is reported on reentry. -/
theorem init_reentry_behavior_check :
    PapagayoEngine.init false false false
        { ogre := true, resourceMgr := true, sceneMgr := true, trace := [] } =
      ({ ogre := true, resourceMgr := true, sceneMgr := true,
         trace := [InitAction.rtShaderSetup, InitAction.meshTest] }, none) :=
  init_reentry_behavior _ false false false rfl rfl rfl

/-- C9: PapagayoEngine.clean records the deletion of the instance but
never resets the static pointer, so afterwards setupInstance still
returns false without mutation and getInstance still hands out the same,
now destroyed, allocation; a second engine can never be created. -/
theorem clean_leaves_instance_dangling (st : EnginePtr) (p fresh : Nat)
    (h : st.inst = some p) :
    (PapagayoEngine.clean st).inst = some p ∧
    p ∈ (PapagayoEngine.clean st).destroyed ∧
    PapagayoEngine.setupInstance (PapagayoEngine.clean st) fresh =
      (false, PapagayoEngine.clean st) ∧
    PapagayoEngine.getInstance (PapagayoEngine.clean st) fresh =
      Except.ok (p, PapagayoEngine.clean st) := by
  have hc : PapagayoEngine.clean st =
      { st with managersCleaned := true, destroyed := p :: st.destroyed } := by
    simp [PapagayoEngine.clean, h]
  rw [hc]
  refine ⟨by simp [h], List.mem_cons_self p st.destroyed, ?_, ?_⟩
  · simp [PapagayoEngine.setupInstance, h]
  · simp [PapagayoEngine.getInstance, h]

/-- C9 witness: the dangling-pointer behavior at a concrete state. -/
theorem clean_leaves_instance_dangling_check :
    (PapagayoEngine.clean { inst := some 3, destroyed := [], managersCleaned := false }).inst
      = some 3 ∧
    3 ∈ (PapagayoEngine.clean
        { inst := some 3, destroyed := [], managersCleaned := false }).destroyed := by
  have h := clean_leaves_instance_dangling
    { inst := some 3, destroyed := [], managersCleaned := false } 3 11 rfl
  exact ⟨h.1, h.2.1⟩

/-- C10: UIManager.setUpInstance is atomic on construction failure: a
throwing constructor is caught and reported as false with the instance
pointer still null, and the instance is stored exactly when construction
completes without throwing. -/
theorem ui_setup_exception_atomicity (fresh : Nat) :
    UIManager.setUpInstance false none fresh = (false, none) ∧
    UIManager.setUpInstance true none fresh = (true, some fresh) :=
  ⟨rfl, rfl⟩

theorem runLoop_flag_false (renderOk stopReq : Nat -> Bool) (fuel : Nat) (st : RunState)
    (h : st.running = false) :
    PapagayoEngine.runLoop renderOk stopReq fuel st = Except.ok (0, st) := by
  cases fuel with
  | zero => rfl
  | succ fuel => simp [PapagayoEngine.runLoop, h]

theorem runLoop_step (renderOk stopReq : Nat -> Bool) (fuel : Nat) (f : Nat)
    (hok : renderOk f = true) :
    PapagayoEngine.runLoop renderOk stopReq (fuel + 1) { running := true, frame := f } =
      (match PapagayoEngine.runLoop renderOk stopReq fuel
          { running := !(stopReq f), frame := f + 1 } with
       | Except.error e => Except.error e
       | Except.ok (n, st2) => Except.ok (n + 1, st2)) := by
  simp [PapagayoEngine.runLoop, PapagayoEngine.update, hok]

theorem runLoop_step_fail (renderOk stopReq : Nat -> Bool) (fuel : Nat) (f : Nat)
    (hok : renderOk f = false) :
    PapagayoEngine.runLoop renderOk stopReq (fuel + 1) { running := true, frame := f } =
      Except.error "Fallo de renderizado" := by
  simp [PapagayoEngine.runLoop, PapagayoEngine.update, hok]

theorem runLoop_stop_at (k : Nat) : forall fuel j, j <= k -> k + 2 - j <= fuel ->
    PapagayoEngine.runLoop (fun _ => true) (fun n => n == k) fuel
        { running := true, frame := j } =
      Except.ok (k + 1 - j, { running := false, frame := k + 1 }) := by
  intro fuel
  induction fuel with
  | zero => intro j hj hf; omega
  | succ fuel ih =>
    intro j hj hf
    rw [runLoop_step (fun _ => true) (fun n => n == k) fuel j rfl]
    by_cases hjk : j = k
    · subst hjk
      have hb : (!(j == j)) = false := by simp
      rw [hb]
      rw [runLoop_flag_false (fun _ => true) (fun n => n == j) fuel
        { running := false, frame := j + 1 } rfl]
      have harith : j + 1 - j = 1 := by omega
      simp [harith]
    · have hb : (!(j == k)) = true := by simp [hjk]
      rw [hb]
      rw [ih (j + 1) (by omega) (by omega)]
      simp only []
      have harith : k + 1 - (j + 1) + 1 = k + 1 - j := by omega
      simp
      omega

theorem runLoop_render_fail (j : Nat) : forall fuel i, i <= j -> j + 1 - i <= fuel ->
    PapagayoEngine.runLoop (fun n => !(n == j)) (fun _ => false) fuel
        { running := true, frame := i } =
      Except.error "Fallo de renderizado" := by
  intro fuel
  induction fuel with
  | zero => intro i hi hf; omega
  | succ fuel ih =>
    intro i hi hf
    by_cases hij : i = j
    · subst hij
      apply runLoop_step_fail
      simp
    · have hb : (!(i == j)) = true := by simp [hij]
      rw [runLoop_step (fun n => !(n == j)) (fun _ => false) fuel i hb]
      have hbs : (!false) = true := rfl
      rw [hbs]
      rw [ih (i + 1) (by omega) (by omega)]

/-- C3: PapagayoEngine.run calls init and then repeatedly calls update
while the running flag holds: an init failure propagates and the loop is
never entered; the flag is checked at the top of each iteration, so from
any state whose flag is false zero updates run; and a stop requested
during frame k takes effect only after that in-flight frame completes,
so exactly k plus one updates happen and none after the flag is observed
false. -/
theorem run_loop_cooperative_stop (k fuel : Nat) (hf : k + 2 <= fuel) :
    PapagayoEngine.run true true true (fun _ => true) (fun n => n == k) fuel
        { running := true, frame := 0 } =
      Except.ok (k + 1, { running := false, frame := k + 1 }) ∧
    (∀ st : RunState, st.running = false ->
      PapagayoEngine.runLoop (fun _ => true) (fun n => n == k) fuel st =
        Except.ok (0, st)) ∧
    PapagayoEngine.run false true true (fun _ => true) (fun n => n == k) fuel
        { running := true, frame := 0 } =
      Except.error "OgreContext init fail" := by
  refine ⟨?_, ?_, rfl⟩
  · have h := runLoop_stop_at k fuel 0 (by omega) (by omega)
    have h2 : k + 1 - 0 = k + 1 := by omega
    rw [h2] at h
    exact h
  · intro st hst
    exact runLoop_flag_false _ _ fuel st hst

/-- C3 witness: a stop requested during frame 1, with fuel 4: exactly two
updates run and the loop exits with the flag observed false. -/
theorem run_loop_cooperative_stop_check :
    PapagayoEngine.run true true true (fun _ => true) (fun n => n == 1) 4
        { running := true, frame := 0 } =
      Except.ok (2, { running := false, frame := 2 }) :=
  (run_loop_cooperative_stop 1 4 (by decide)).1

/-- C5 counterexample: a successful PapagayoEngine.update emits only the
external frame advance; no manager update dispatch of any domain appears
in its event trace, contrary to the claim that update invokes each
manager update in the fixed order. -/
theorem update_dispatches_no_manager :
    PapagayoEngine.update (fun _ => true) (fun _ => false)
        { running := true, frame := 0 } =
      Except.ok ({ running := true, frame := 1 }, [FrameEvent.advanceFrame]) ∧
    ¬ FrameEvent.managerUpdate ManID.render ∈ [FrameEvent.advanceFrame] ∧
    ¬ FrameEvent.managerUpdate ManID.physics ∈ [FrameEvent.advanceFrame] ∧
    ¬ FrameEvent.managerUpdate ManID.ui ∈ [FrameEvent.advanceFrame] :=
  ⟨rfl, by decide, by decide, by decide⟩

/-- C5 amended: PapagayoEngine.update advances the external frame context
by exactly one tick and dispatches no manager updates; a failure of the
frame advance is rethrown as the fatal rendering error, and such a
failure during the loop terminates run with that error. -/
theorem update_one_tick_fatal_failure (renderOk stopReq : Nat -> Bool) (st : RunState)
    (j fuel : Nat) (hfuel : j + 1 <= fuel) :
    (renderOk st.frame = true ->
      PapagayoEngine.update renderOk stopReq st =
        Except.ok ({ running := st.running && !(stopReq st.frame),
                     frame := st.frame + 1 },
          [FrameEvent.advanceFrame])) ∧
    (renderOk st.frame = false ->
      PapagayoEngine.update renderOk stopReq st =
        Except.error "Fallo de renderizado") ∧
    PapagayoEngine.run true true true (fun n => !(n == j)) (fun _ => false) fuel
        { running := true, frame := 0 } =
      Except.error "Fallo de renderizado" := by
  refine ⟨?_, ?_, ?_⟩
  · intro h
    simp [PapagayoEngine.update, h]
  · intro h
    simp [PapagayoEngine.update, h]
  · exact runLoop_render_fail j fuel 0 (by omega) (by omega)

/-- C5 witness: one successful tick from frame 5, and a render failure at
frame 0 terminating run with the fatal error. -/
theorem update_one_tick_fatal_failure_check :
    PapagayoEngine.update (fun _ => true) (fun _ => false)
        { running := true, frame := 5 } =
      Except.ok ({ running := true, frame := 6 }, [FrameEvent.advanceFrame]) ∧
    PapagayoEngine.run true true true (fun n => !(n == 0)) (fun _ => false) 1
        { running := true, frame := 0 } =
      Except.error "Fallo de renderizado" := by
  have h := update_one_tick_fatal_failure (fun _ => true) (fun _ => false)
    { running := true, frame := 5 } 0 1 (by decide)
  exact ⟨h.1 rfl, h.2.2⟩

/-- C4: n insertions of the same base name into a fresh scene yield n
distinct keys with no overwriting: the first insert keeps the base name,
each later one gets the base name with the incrementing per-base-name
counter, the counter persists across collisions, and adding Enemy three
times yields the keys Enemy, Enemy_1 and Enemy_2. -/
theorem scene_add_entity_distinct_keys (b : Str) (n : Nat) :
    (Scene.addSame b n).entities.map Prod.fst = expectedKeys b n ∧
    (expectedKeys b n).Nodup ∧
    (Scene.addSame b n).entities.length = n ∧
    (Scene.addSame ['E', 'n', 'e', 'm', 'y'] 3).entities.map Prod.fst =
      [['E', 'n', 'e', 'm', 'y'],
       ['E', 'n', 'e', 'm', 'y', '_', '1'],
       ['E', 'n', 'e', 'm', 'y', '_', '2']] := by
  refine ⟨(addSame_spec b n).1, expectedKeys_nodup b n, ?_, ?_⟩
  · have h := congrArg List.length (addSame_spec b n).1
    simpa [expectedKeys] using h
  · decide
